import Mathlib

/-!
Verification development for the `processes` C++ library
(`_pipe.hpp` / `pipe.hpp` / `process.hpp`): a shallow embedding of the
channel (`_pipe<>`) operations, the child-branch redirection algorithm,
and the `process` wait/poll/kill state machine, together with theorems
settling the specification claims.

Conventions of the embedding:
* kernel handles (file descriptors) are `Int`; the sentinel NONE is `-1`;
* the tri-valued running state is the inductive `Running`;
* OS interactions (`waitpid`, `dup2`, `dup`, `close`, `kill`, `execvp`)
  are modelled by oracle arguments describing the kernel's answer and by
  explicit traces of the system calls a code path issues;
* each member function of `process` becomes a pure function from the
  protected fields `(_running, _exitcode)` (plus oracles) to the updated
  fields, its return value, and the condition-variable notifications it
  performs.  `_pid` is never written by `wait`/`poll`/`kill`, so those
  functions do not take it as state.
-/

namespace Processes

/-- Sentinel for an absent handle (`-1` in the source, named NONE in the
design document and `DEVNULL` in `process.hpp`). -/
def NONE : Int := -1

/-- `process::UNKNOWN = -127`, the sentinel exit code. -/
def UNKNOWN : Int := -127

/-! ## `_pipe<>`: the channel abstraction (`_pipe.hpp` / `pipe.hpp`) -/

/-- A channel's two handles.  `near` is the end the child will `dup2`
onto a standard stream; `far` is the parent-facing end (`-1` for a
borrowed redirection handle).  The constructor guarantees `near ≥ 0`
and, whenever `far ≥ 0`, that both ends come from a fresh `pipe2` call
with `O_CLOEXEC` set. -/
structure Pipe where
  near : Int
  far : Int
deriving DecidableEq, Repr

/-- Whether the channel owns its ends.  Per the design's data-model
invariant, the channel owns both ends exactly when `far != NONE`
(`process.hpp`: "if far != -1, as created from inside, far is thought
to be owned by process object"). -/
def Pipe.owned (p : Pipe) : Bool := p.far ≥ 0

/-- `_pipe<>::close()` (child branch; `_close()` in `pipe.hpp`):
`if ( far < 0 && near > STDERR_FILENO ) ::close(near);`
Returns `true` iff the `::close(near)` system call is issued. -/
def Pipe.close_child (p : Pipe) : Bool := p.far < 0 && p.near > 2

/-- The spec's wording of `close_in_child()`, verbatim from the claim:
"closes `near` if it is owned and not one of 0, 1, 2; no-op for
borrowed handles and for handles with `far == NONE`". -/
def Pipe.close_child_claimed (p : Pipe) : Bool :=
  p.owned && !(p.near = 0 || p.near = 1 || p.near = 2)

/-! ## Child-branch redirection (`process.hpp`, constructor, child side)

The child branch issues `dup2`/`dup` calls on the three channels
`pipe_in`, `pipe_out`, `pipe_err`.  We record the calls as a trace of
channel-level actions, in program order. -/

/-- The three channel slots of a process. -/
inductive Slot
  | sin   -- `pipe_in`,  ahead of the child (stdin)
  | sout  -- `pipe_out`, behind the child (stdout)
  | serr  -- `pipe_err`, behind the child (stderr)
deriving DecidableEq, Repr

/-- One child-branch redirection action:
`dup2 ch t` is `pipe_ch.dup2(t)`, installing the channel's `near` onto
kernel slot `t`; `dupNear ch` is `pipe_ch.dup2()`, replacing the
channel's `near` with a freshly duplicated handle. -/
inductive RAct
  | dup2 (ch : Slot) (target : Int)
  | dupNear (ch : Slot)
deriving DecidableEq, Repr

/-- The redirection algorithm of the child branch, translated from the
constructor (`process.hpp`):
```
pipe_in.dup2(STDIN);
if ( pipe_err.near == STDOUT ) {    // case 4/5/6
    if ( pipe_out.near == STDERR )  // case 6
        pipe_out.dup2();
    pipe_err.dup2(STDERR);
    pipe_out.dup2(STDOUT);
} else {                            // case 1/2/3
    pipe_out.dup2(STDOUT);
    pipe_err.dup2(STDERR);
}
```
`oNear`/`eNear` are `pipe_out.near`/`pipe_err.near` at entry. -/
def redirect (oNear eNear : Int) : List RAct :=
  RAct.dup2 .sin 0 ::
  (if eNear = 1 then
    (if oNear = 2 then [RAct.dupNear .sout] else []) ++
    [RAct.dup2 .serr 2, RAct.dup2 .sout 1]
  else
    [RAct.dup2 .sout 1, RAct.dup2 .serr 2])

/-- The redirection ordering exactly as the claim states it: three flat
cases — perfect swap (`E = 1 ∧ O = 2`), `E = 1` alone, and everything
else — each with its full action list. -/
def redirect_claimed (oNear eNear : Int) : List RAct :=
  if eNear = 1 ∧ oNear = 2 then
    [RAct.dup2 .sin 0, RAct.dupNear .sout, RAct.dup2 .serr 2, RAct.dup2 .sout 1]
  else if eNear = 1 then
    [RAct.dup2 .sin 0, RAct.dup2 .serr 2, RAct.dup2 .sout 1]
  else
    [RAct.dup2 .sin 0, RAct.dup2 .sout 1, RAct.dup2 .serr 2]

/-- How the child terminates after the redirection and channel closes:
either `execvp` succeeded and replaced the image, or it failed and the
child terminated with the given value.  `ranCleanup` records whether
host-level cleanup (`atexit` handlers etc., i.e. `std::exit` rather
than `std::_Exit`) ran before termination. -/
inductive ChildEnd
  | execed
  | exited (code : Int) (ranCleanup : Bool)
deriving DecidableEq, Repr

/-- The tail of the child branch (`process.hpp`):
`if ( ::execvp(argv[0], ...) == -1 ) std::_Exit(127);`
`std::_Exit` terminates without running any cleanup. -/
def child_exec (execOk : Bool) : ChildEnd :=
  if execOk then .execed else .exited 127 false

/-! ## Wait status decoding

The source decodes the status word of `waitpid` with the glibc macros
`WIFEXITED`, `WEXITSTATUS`, `WIFSIGNALED`, `WTERMSIG`.  Those macros and
the kernel's status-word encoding are system code outside this
repository; they are modelled from their documented semantics
(`wait(2)` / `<bits/waitstatus.h>`): bits 0–6 hold the terminating
signal (0 for a normal exit, 0x7f for a stopped child), bit 7 the core
flag, bits 8–15 the low 8 bits of the exit status. -/

/-- `WIFEXITED(s)`: `(s & 0x7f) == 0`. -/
def wifexited (s : Nat) : Bool := s % 128 = 0

/-- `WEXITSTATUS(s)`: `(s >> 8) & 0xff`. -/
def wexitstatus (s : Nat) : Nat := s / 256 % 256

/-- `WIFSIGNALED(s)`: `((signed char)(((s & 0x7f) + 1) >> 1)) > 0`,
which holds exactly when `1 ≤ (s & 0x7f) ≤ 126`. -/
def wifsignaled (s : Nat) : Bool := 0 < s % 128 && s % 128 < 127

/-- `WTERMSIG(s)`: `s & 0x7f`. -/
def wtermsig (s : Nat) : Nat := s % 128

/-- Kernel status word for a child that called `exit(c)`: the low 8
bits of `c`, shifted into bits 8–15. -/
def exitWord (c : Nat) : Nat := c % 256 * 256

/-- Kernel status word for a child killed by signal `sig`
(`1 ≤ sig ≤ 126`), with the core-dump flag in bit 7. -/
def signalWord (sig : Nat) (core : Bool) : Nat :=
  sig + if core then 128 else 0

/-- Outcome of one `::waitpid(pid, &status, WNOHANG)` call, the oracle
for the non-blocking reaps in `poll` and the timed `wait`:
* `stillRunning` — `waitpid` returned 0;
* `noChild` — `waitpid` returned −1 (e.g. the host's SIGCHLD policy
  auto-reaped the child);
* `reaped s` — `waitpid` returned the pid with status word `s`. -/
inductive Reap
  | stillRunning
  | noChild
  | reaped (s : Nat)
deriving DecidableEq, Repr

/-- The exit-code update all three reaping operations perform after
`waitpid`, translated from the source (`wpid` is the return value):
```
if ( wpid != -1 ) {
    if ( WIFEXITED(status) )
        _exitcode = WEXITSTATUS(status);
    else if ( WIFSIGNALED(status) )
        _exitcode = -WTERMSIG(status);
}
```
`noChild` is the `wpid == -1` case, leaving the exit code unchanged. -/
def decode (exitcode : Int) : Reap → Int
  | .stillRunning => exitcode
  | .noChild => exitcode
  | .reaped s =>
      if wifexited s then (wexitstatus s : Int)
      else if wifsignaled s then -(wtermsig s : Int)
      else exitcode

/-! ## The `process` state machine (`process.hpp`) -/

/-- The tri-valued `_running` field (`ALONE` is the spec's UNWAITED). -/
inductive Running
  | DONE     -- child is done running (terminated)
  | ALONE    -- no thread is waiting for child
  | AWAITED  -- some thread is waiting for child
deriving DecidableEq, Repr

/-- The mutex-protected fields of a `process` that the reaping
operations read and write. -/
structure St where
  running : Running
  exitcode : Int
deriving DecidableEq, Repr

/-- Condition-variable notifications a reaping operation issues. -/
inductive Ev
  | notifyOne
  | notifyAll
deriving DecidableEq, Repr

/-- `process::poll()`, translated from the source.  `r` is the oracle
for the single `::waitpid(pid, &status, WNOHANG)` call (consulted only
when `_running == ALONE`).  Returns the boolean result, the updated
fields, and the notifications issued. -/
def poll (σ : St) (r : Reap) : Bool × St × List Ev :=
  if σ.running = .ALONE then
    match r with
    | .stillRunning => (false, σ, [])
    | r => (true, ⟨.DONE, decode σ.exitcode r⟩, [.notifyAll])
  else
    (σ.running = .DONE, σ, [])

/-- `process::wait()` (blocking), translated from the source, starting
from the state observed when the condition-variable wait
`_not_awaited.wait(lock, [this]{ return _running != AWAITED; })` has
returned, so `σ.running ≠ AWAITED` at entry.  `r` is the oracle for
the blocking `::waitpid(pid, &status, 0)` call, which never returns 0,
so `r ≠ stillRunning`. -/
def wait (σ : St) (r : Reap) : St × List Ev :=
  if σ.running = .ALONE then
    (⟨.DONE, decode σ.exitcode r⟩, [.notifyAll])
  else
    (σ, [])

/-- One oracle entry for an iteration of the timed wait's polling loop:
the `waitpid(WNOHANG)` result and, when the loop then computes it, the
remaining budget `when - steady_clock::now()` in milliseconds. -/
structure LoopObs where
  reap : Reap
  remaining : Int
deriving Repr

/-- The bounded-backoff polling loop of `process::wait(timeout)`,
translated from the source:
```
for ( auto dt = 1ms ; (wpid = ::waitpid(pid, &status, WNOHANG)) == 0 ; ) {
    const auto remaining = duration_cast<milliseconds>(when - now());
    if ( remaining <= 0ms ) {
        _running = ALONE;
        _not_awaited.notify_one();
        return false;
    }
    std::this_thread::sleep_for(std::min(dt, remaining));
    if ( dt < 64ms ) dt *= 2;
}
lock.lock();
... decode ...
_running = DONE;
_not_awaited.notify_all();
```
then `return true`.  The caller has already set `_running = AWAITED`.
`dt` (milliseconds) only controls the sleep length; it is threaded for
faithfulness.  The oracle list supplies one `LoopObs` per `waitpid`
call; `none` means the oracle ran out before the loop finished. -/
def twLoop (ec : Int) (dt : Int) : List LoopObs → Option (Bool × St × List Ev)
  | [] => none
  | o :: rest =>
    match o.reap with
    | .stillRunning =>
        if o.remaining ≤ 0 then
          some (false, ⟨.ALONE, ec⟩, [.notifyOne])
        else
          twLoop ec (if dt < 64 then dt * 2 else dt) rest
    | r => some (true, ⟨.DONE, decode ec r⟩, [.notifyAll])

/-- `process::wait(timeout)`, translated from the source.
`cvTimedOut` is the oracle for the leading
`_not_awaited.wait_for(lock, timeout, [this]{ return _running != AWAITED; })`:
`true` when it expired with the predicate still false (which requires
`σ.running = AWAITED`).  On `false` the predicate held, and `σ` is the
state observed at that point.  `obs` is the polling-loop oracle. -/
def wait_timed (σ : St) (cvTimedOut : Bool) (obs : List LoopObs) :
    Option (Bool × St × List Ev) :=
  if cvTimedOut then
    some (false, σ, [])
  else if σ.running = .ALONE then
    twLoop σ.exitcode 1 obs
  else
    some (true, σ, [])

/-- Result of the `::kill(pid, sig)` system call, the oracle for
`process::kill`. -/
inductive KillRes
  | ok
  | fail (errno : Int)
deriving DecidableEq, Repr

/-- `process::kill(sig)`, translated from the source:
```
if ( !poll() )
    if ( ::kill(pid, sig) == -1 )
        throw std::system_error(errno, std::system_category());
```
Returns the updated fields, whether the signal-send call was issued,
and the notifications, or the thrown errno.  `kr` is consulted only
when the signal is actually sent. -/
def kill (σ : St) (r : Reap) (kr : KillRes) :
    Except Int (St × Bool × List Ev) :=
  match poll σ r with
  | (true, σ2, evs) => .ok (σ2, false, evs)
  | (false, σ2, evs) =>
    match kr with
    | .ok => .ok (σ2, true, evs)
    | .fail e => .error e

/-! ## Move construction and destruction (`process.hpp`) -/

/-- The data members of a `process` object that the move constructor
transfers: `_pid`, `_running`, `_exitcode`, and the three far handles
`_stdin`, `_stdout`, `_stderr`. -/
structure PFields where
  _pid : Int
  _running : Running
  _exitcode : Int
  _stdin : Int
  _stdout : Int
  _stderr : Int
deriving DecidableEq, Repr

/-- `process::process(process&& p)`, translated from the source: the
member initializers copy every field of `p`, and the body resets the
moved-from object (`p._pid = 0; p._running = DONE; p._exitcode =
UNKNOWN; p._stdin = p._stdout = p._stderr = DEVNULL;`).  Returns
`(new object, moved-from object)`.  The `this != &p` guard of the
source only concerns the aliased self-move call, which has no
counterpart for a pure function of the source object's fields. -/
def move_construct (p : PFields) : PFields × PFields :=
  (p, ⟨0, .DONE, UNKNOWN, NONE, NONE, NONE⟩)

/-- `process::~process()`: the `::close` system calls it issues, in
order (`::close(_stdin); ::close(_stdout); ::close(_stderr);`,
unconditionally — `::close(-1)` merely fails with EBADF and touches no
open handle). -/
def dtor_close_calls (p : PFields) : List Int :=
  [p._stdin, p._stdout, p._stderr]

/-! ## Supporting lemmas -/

/-- Decoding the status word of a child that exited normally with code
`c` yields the low 8 bits of `c`. -/
theorem decode_exitWord (e : Int) (c : Nat) :
    decode e (.reaped (exitWord c)) = ((c % 256 : Nat) : Int) := by
  have hex : wifexited (exitWord c) = true := by
    simp only [wifexited, exitWord, decide_eq_true_eq]
    omega
  simp only [decode, hex, if_true]
  simp only [wexitstatus, exitWord]
  congr 1
  omega

/-- Decoding the status word of a child killed by signal `sig` yields
`-sig`, independently of the core-dump flag. -/
theorem decode_signalWord (e : Int) (sig : Nat) (h1 : 1 ≤ sig)
    (h2 : sig ≤ 126) (core : Bool) :
    decode e (.reaped (signalWord sig core)) = -(sig : Int) := by
  have hmod : signalWord sig core % 128 = sig := by
    cases core <;> simp [signalWord] <;> omega
  have hex : wifexited (signalWord sig core) = false := by
    simp only [wifexited, decide_eq_true_eq, decide_eq_false_iff_not, hmod]
    omega
  have hsg : wifsignaled (signalWord sig core) = true := by
    simp only [wifsignaled, hmod, Bool.and_eq_true, decide_eq_true_eq]
    omega
  simp only [decode, hex, hsg, if_true, Bool.false_eq_true, if_false, wtermsig, hmod]

/-- A `false` result of the timed wait's polling loop restores
`_running = ALONE`, leaves the exit code alone, performs exactly one
`notify_one`, and can only arise from an iteration that saw the child
still running with no remaining budget. -/
theorem twLoop_false (ec dt : Int) (obs : List LoopObs) (σ2 : St)
    (evs : List Ev) (h : twLoop ec dt obs = some (false, σ2, evs)) :
    σ2 = ⟨.ALONE, ec⟩ ∧ evs = [.notifyOne] ∧
    ∃ o ∈ obs, o.reap = .stillRunning ∧ o.remaining ≤ 0 := by
  induction obs generalizing dt with
  | nil => simp [twLoop] at h
  | cons o rest ih =>
    rcases o with ⟨r, rem⟩
    cases r with
    | stillRunning =>
      by_cases hrem : rem ≤ 0
      · simp only [twLoop, hrem, if_true, Option.some.injEq, Prod.mk.injEq] at h
        exact ⟨h.2.1.symm, h.2.2.symm, ⟨⟨.stillRunning, rem⟩, List.mem_cons_self .., rfl, hrem⟩⟩
      · simp only [twLoop, hrem, if_false] at h
        obtain ⟨h1, h2, o, ho, h3⟩ := ih _ h
        exact ⟨h1, h2, o, List.mem_cons_of_mem _ ho, h3⟩
    | noChild => simp [twLoop] at h
    | reaped s => simp [twLoop] at h

/-! ## Claim theorems -/

/-- C1, counterexample: the claim says `close_in_child` closes `near`
only when the channel owns it and is a no-op for every channel with
`far == NONE`; but on a borrowed channel with `near = 5`, `far = NONE`
the code does issue `::close(near)` while the claimed behaviour is a
no-op. -/
theorem C1_close_child_counterexample :
    Pipe.close_child ⟨5, NONE⟩ = true ∧
    Pipe.close_child_claimed ⟨5, NONE⟩ = false := by
  decide

/-- C1, amended: `close_in_child` closes `near` exactly when the
channel does *not* own it (`far == NONE`) and `near` is not one of the
standard handles 0, 1, 2; it is a no-op for every owned channel
(`far != NONE`), whose two close-on-exec ends are instead released by
`exec`.  (`near ≥ 0` holds for every constructed channel.) -/
theorem C1_close_child_iff (p : Pipe) (h : 0 ≤ p.near) :
    p.close_child = true ↔
      p.owned = false ∧ p.near ≠ 0 ∧ p.near ≠ 1 ∧ p.near ≠ 2 := by
  simp only [Pipe.close_child, Pipe.owned, Bool.and_eq_true, decide_eq_true_eq,
    decide_eq_false_iff_not, not_le, ge_iff_le, ne_eq]
  omega

/-- Witness for C1: the amended characterisation evaluated on the
borrowed channel `(near, far) = (5, NONE)`. -/
theorem C1_close_child_iff_witness : Pipe.close_child ⟨5, NONE⟩ = true :=
  (C1_close_child_iff ⟨5, NONE⟩ (by decide)).mpr (by decide)

/-- C2: the child-branch redirection trace is, in every case, exactly
what the claim states — `dup2(S,0)` always first; on a perfect swap
(`E = 1 ∧ O = 2`) a fresh duplication of the stdout channel's `near`
followed by `dup2(E,2); dup2(O,1)`; with `E = 1` alone just
`dup2(E,2); dup2(O,1)`; otherwise `dup2(O,1); dup2(E,2)`. -/
theorem C2_redirect_order (oNear eNear : Int) :
    redirect oNear eNear = redirect_claimed oNear eNear := by
  by_cases he : eNear = 1 <;> by_cases ho : oNear = 2 <;>
    simp [redirect, redirect_claimed, he, ho]

/-- C3: every reaping operation (`wait`, `wait(timeout)`, `poll`) sets
the exit code to the low-order 8 bits of the exit status on a normal
exit, to the negated signal number on death by signal, and leaves it
at UNKNOWN when `waitpid` returns −1 — while still transitioning to
DONE and returning normally in all three cases. -/
theorem C3_exitcode_decoding (σ : St) (h : σ.running = .ALONE)
    (hu : σ.exitcode = UNKNOWN) (c sig : Nat) (h1 : 1 ≤ sig)
    (h2 : sig ≤ 126) (core : Bool) (rem : Int) :
    (wait σ (.reaped (exitWord c)) = (⟨.DONE, ((c % 256 : Nat) : Int)⟩, [.notifyAll])
      ∧ wait σ (.reaped (signalWord sig core)) = (⟨.DONE, -(sig : Int)⟩, [.notifyAll])
      ∧ wait σ .noChild = (⟨.DONE, UNKNOWN⟩, [.notifyAll]))
  ∧ (poll σ (.reaped (exitWord c)) = (true, ⟨.DONE, ((c % 256 : Nat) : Int)⟩, [.notifyAll])
      ∧ poll σ (.reaped (signalWord sig core)) = (true, ⟨.DONE, -(sig : Int)⟩, [.notifyAll])
      ∧ poll σ .noChild = (true, ⟨.DONE, UNKNOWN⟩, [.notifyAll]))
  ∧ (wait_timed σ false [⟨.reaped (exitWord c), rem⟩]
        = some (true, ⟨.DONE, ((c % 256 : Nat) : Int)⟩, [.notifyAll])
      ∧ wait_timed σ false [⟨.reaped (signalWord sig core), rem⟩]
        = some (true, ⟨.DONE, -(sig : Int)⟩, [.notifyAll])
      ∧ wait_timed σ false [⟨.noChild, rem⟩]
        = some (true, ⟨.DONE, UNKNOWN⟩, [.notifyAll])) := by
  have hd1 := decode_exitWord σ.exitcode c
  have hd2 := decode_signalWord σ.exitcode sig h1 h2 core
  have hd3 : decode σ.exitcode .noChild = UNKNOWN := hu
  refine ⟨⟨?_, ?_, ?_⟩, ⟨?_, ?_, ?_⟩, ?_, ?_, ?_⟩ <;>
    simp [wait, poll, wait_timed, twLoop, h, hd1, hd2, hd3]

/-- Witness for C3: `poll` on an ALONE process whose child exited with
status 300 records `300 mod 256 = 44`. -/
theorem C3_exitcode_decoding_witness :
    poll ⟨.ALONE, UNKNOWN⟩ (.reaped (exitWord 300))
      = (true, ⟨.DONE, ((300 % 256 : Nat) : Int)⟩, [.notifyAll]) :=
  (C3_exitcode_decoding ⟨.ALONE, UNKNOWN⟩ rfl rfl 300 9 (by decide)
    (by decide) false 5).2.1.1

/-- C4: a timed wait with zero duration is equivalent to `poll`: with a
zero budget the condition-variable wait returns the predicate value
immediately (it times out exactly when the state is AWAITED) and every
computed `remaining` is ≤ 0, and then the returned boolean and the
resulting `(running, exitcode)` state coincide with `poll`'s. -/
theorem C4_zero_timeout_is_poll (σ : St) (r : Reap) (rem : Int)
    (hrem : rem ≤ 0) :
    (wait_timed σ (decide (σ.running = .AWAITED)) [⟨r, rem⟩]).map
        (fun out => (out.1, out.2.1))
      = some ((poll σ r).1, (poll σ r).2.1) := by
  obtain ⟨run, ec⟩ := σ
  cases run <;> cases r <;> simp [wait_timed, twLoop, poll, hrem]

/-- Witness for C4: the zero-duration equivalence at an UNWAITED
process whose child is still running. -/
theorem C4_zero_timeout_is_poll_witness :
    (wait_timed ⟨.ALONE, UNKNOWN⟩
        (decide ((⟨.ALONE, UNKNOWN⟩ : St).running = .AWAITED))
        [⟨.stillRunning, 0⟩]).map (fun out => (out.1, out.2.1))
      = some ((poll ⟨.ALONE, UNKNOWN⟩ .stillRunning).1,
              (poll ⟨.ALONE, UNKNOWN⟩ .stillRunning).2.1) :=
  C4_zero_timeout_is_poll ⟨.ALONE, UNKNOWN⟩ .stillRunning 0 (le_refl 0)

/-- C5: when a timed wait that took the AWAITED role (state was ALONE
after the condition-variable wait) returns `false`, it has run out of
budget at an iteration where the child was still running, has set the
state back to UNWAITED (ALONE) with the exit code untouched, and has
signalled exactly one waiter; in particular it never returns `false`
still holding AWAITED. -/
theorem C5_baton_relay (σ : St) (h : σ.running = .ALONE)
    (obs : List LoopObs) (σ2 : St) (evs : List Ev)
    (hres : wait_timed σ false obs = some (false, σ2, evs)) :
    σ2.running = .ALONE ∧ σ2.exitcode = σ.exitcode ∧ evs = [.notifyOne] ∧
    ∃ o ∈ obs, o.reap = .stillRunning ∧ o.remaining ≤ 0 := by
  simp only [wait_timed, Bool.false_eq_true, if_false, h, if_true] at hres
  obtain ⟨h1, h2, h3⟩ := twLoop_false σ.exitcode 1 obs σ2 evs hres
  exact ⟨by rw [h1], by rw [h1], h2, h3⟩

/-- Witness for C5: a budget-exhausted single-iteration run relays the
baton. -/
theorem C5_baton_relay_witness :
    (⟨.ALONE, UNKNOWN⟩ : St).running = .ALONE ∧
    (⟨.ALONE, UNKNOWN⟩ : St).exitcode = (⟨.ALONE, UNKNOWN⟩ : St).exitcode ∧
    [Ev.notifyOne] = [Ev.notifyOne] ∧
    ∃ o ∈ [(⟨.stillRunning, 0⟩ : LoopObs)],
      o.reap = .stillRunning ∧ o.remaining ≤ 0 :=
  C5_baton_relay ⟨.ALONE, UNKNOWN⟩ rfl [⟨.stillRunning, 0⟩]
    ⟨.ALONE, UNKNOWN⟩ [.notifyOne] (by decide)

/-- C6: `kill` polls first; on a DONE process it is a no-op that does
not raise (regardless of what the signal send would have returned),
the signal is sent only when that poll reported the child unreaped,
and a failing signal send surfaces as the thrown errno. -/
theorem C6_kill_protocol (σ : St) (r : Reap) (kr : KillRes) :
    (σ.running = .DONE → kill σ r kr = .ok (σ, false, []))
  ∧ (∀ σ2 evs, kill σ r kr = .ok (σ2, true, evs) → (poll σ r).1 = false)
  ∧ (∀ e, (poll σ r).1 = false → kr = .fail e → kill σ r kr = .error e) := by
  obtain ⟨run, ec⟩ := σ
  cases run <;> cases r <;> cases kr <;> simp [kill, poll]

/-- Witness for C6: killing a DONE process with a signal send that
would fail still succeeds without sending. -/
theorem C6_kill_protocol_witness :
    kill ⟨.DONE, 0⟩ .stillRunning (.fail 3) = .ok (⟨.DONE, 0⟩, false, []) :=
  (C6_kill_protocol ⟨.DONE, 0⟩ .stillRunning (.fail 3)).1 rfl

/-- C7: when `execvp` fails the child terminates with value 127 via
`std::_Exit`, running no host-level cleanup. -/
theorem C7_exec_failure : child_exec false = .exited 127 false := rfl

/-- C8: `poll` is idempotent on a DONE process: it returns `true` and
changes nothing, and so does any further `poll`. -/
theorem C8_poll_idempotent (σ : St) (h : σ.running = .DONE) (r r2 : Reap) :
    poll σ r = (true, σ, []) ∧ poll (poll σ r).2.1 r2 = (true, σ, []) := by
  have h1 : poll σ r = (true, σ, []) := by simp [poll, h]
  exact ⟨h1, by rw [h1]; simp [poll, h]⟩

/-- Witness for C8: repeated polls of a DONE process. -/
theorem C8_poll_idempotent_witness :
    poll ⟨.DONE, 0⟩ .stillRunning = (true, ⟨.DONE, 0⟩, []) ∧
    poll (poll ⟨.DONE, 0⟩ .stillRunning).2.1 .noChild
      = (true, ⟨.DONE, 0⟩, []) :=
  C8_poll_idempotent ⟨.DONE, 0⟩ rfl .stillRunning .noChild

/-- C9: the move constructor copies `pid`, running state, exit code and
the three far handles, resets the moved-from object to
`(0, DONE, UNKNOWN, NONE, NONE, NONE)`, and the moved-from object's
destructor then issues no close on any open (non-negative) handle. -/
theorem C9_move_constructor (p : PFields) :
    (move_construct p).1 = p ∧
    (move_construct p).2 = ⟨0, .DONE, UNKNOWN, NONE, NONE, NONE⟩ ∧
    List.filter (fun fd => decide (0 ≤ fd))
      (dtor_close_calls (move_construct p).2) = [] :=
  ⟨rfl, rfl, rfl⟩

/-- C10: DONE is absorbing: on a DONE process, `wait` returns at once
without change, `wait(timeout)` returns `true` without change (its
condition-variable wait cannot time out since the predicate already
holds, so its timeout oracle is `false`), `poll` returns `true`
without change, and `kill` sends no signal and changes nothing.  The
`_pid` field is never written by any of these operations, so it is
unchanged by construction of the embedding. -/
theorem C10_done_absorbing (σ : St) (h : σ.running = .DONE)
    (r r2 r3 : Reap) (kr : KillRes) (obs : List LoopObs) :
    wait σ r = (σ, [])
  ∧ wait_timed σ false obs = some (true, σ, [])
  ∧ poll σ r2 = (true, σ, [])
  ∧ kill σ r3 kr = .ok (σ, false, []) := by
  refine ⟨?_, ?_, ?_, ?_⟩ <;> simp [wait, wait_timed, poll, kill, h]

/-- Witness for C10: all four operations on a concrete DONE process. -/
theorem C10_done_absorbing_witness :
    wait ⟨.DONE, 0⟩ .noChild = (⟨.DONE, 0⟩, [])
  ∧ wait_timed ⟨.DONE, 0⟩ false [⟨.stillRunning, 7⟩]
      = some (true, ⟨.DONE, 0⟩, [])
  ∧ poll ⟨.DONE, 0⟩ .stillRunning = (true, ⟨.DONE, 0⟩, [])
  ∧ kill ⟨.DONE, 0⟩ .noChild .ok = .ok (⟨.DONE, 0⟩, false, []) :=
  C10_done_absorbing ⟨.DONE, 0⟩ rfl .noChild .stillRunning .noChild .ok
    [⟨.stillRunning, 7⟩]

end Processes
